import Mathlib

/-
  Verification development for the cacheddownloader repository.

  The Go sources are embedded shallowly:
  * downloader.go        : Download retry loop, fetchToFile response handling,
                           convertETagToChecksum (MD5 checksum ETags).
  * cached_downloader.go : the coordinator — Fetch / fetchCachedFile /
                           FetchAsDirectory / fetchCachedDirectory /
                           populateCache / New, and the per-key
                           single-flight gate (acquireLimiter/releaseLimiter).

  External effects (HTTP transport, the file-cache calls, the filesystem)
  appear as explicit environment records whose fields give the result of
  each effectful call site, in source order; the functions below mirror the
  Go control flow over those results.  Machine integers are modelled as Nat
  (byte values, sizes as Int) with explicit reduction mod 2^32 where the Go
  code relies on 32-bit wraparound (the MD5 core).
-/

namespace CachedDownloader

set_option maxRecDepth 16000

/-! ## MD5 (crypto/md5), used by the downloader for checksum ETags and by
    the coordinator for cache-key fingerprints.  Bytes are Nat values < 256;
    32-bit words are Nat reduced mod 2^32. -/
def w32 (n : Nat) : Nat := n % 4294967296

def rotl32 (x c : Nat) : Nat := w32 ((x <<< c) ||| (x >>> (32 - c)))

def md5K : List Nat :=
  [0xd76aa478, 0xe8c7b756, 0x242070db, 0xc1bdceee,
   0xf57c0faf, 0x4787c62a, 0xa8304613, 0xfd469501,
   0x698098d8, 0x8b44f7af, 0xffff5bb1, 0x895cd7be,
   0x6b901122, 0xfd987193, 0xa679438e, 0x49b40821,
   0xf61e2562, 0xc040b340, 0x265e5a51, 0xe9b6c7aa,
   0xd62f105d, 0x02441453, 0xd8a1e681, 0xe7d3fbc8,
   0x21e1cde6, 0xc33707d6, 0xf4d50d87, 0x455a14ed,
   0xa9e3e905, 0xfcefa3f8, 0x676f02d9, 0x8d2a4c8a,
   0xfffa3942, 0x8771f681, 0x6d9d6122, 0xfde5380c,
   0xa4beea44, 0x4bdecfa9, 0xf6bb4b60, 0xbebfbc70,
   0x289b7ec6, 0xeaa127fa, 0xd4ef3085, 0x04881d05,
   0xd9d4d039, 0xe6db99e5, 0x1fa27cf8, 0xc4ac5665,
   0xf4292244, 0x432aff97, 0xab9423a7, 0xfc93a039,
   0x655b59c3, 0x8f0ccc92, 0xffeff47d, 0x85845dd1,
   0x6fa87e4f, 0xfe2ce6e0, 0xa3014314, 0x4e0811a1,
   0xf7537e82, 0xbd3af235, 0x2ad7d2bb, 0xeb86d391]

def md5S : List Nat :=
  [7, 12, 17, 22, 7, 12, 17, 22, 7, 12, 17, 22, 7, 12, 17, 22,
   5, 9, 14, 20, 5, 9, 14, 20, 5, 9, 14, 20, 5, 9, 14, 20,
   4, 11, 16, 23, 4, 11, 16, 23, 4, 11, 16, 23, 4, 11, 16, 23,
   6, 10, 15, 21, 6, 10, 15, 21, 6, 10, 15, 21, 6, 10, 15, 21]

/-- Little-endian 32-bit word number j of a 64-byte chunk. -/
def leWord (chunk : List Nat) (j : Nat) : Nat :=
  chunk.getD (4 * j) 0 + 256 * chunk.getD (4 * j + 1) 0 +
    65536 * chunk.getD (4 * j + 2) 0 + 16777216 * chunk.getD (4 * j + 3) 0

def md5Round (M : Nat → Nat) (st : Nat × Nat × Nat × Nat) (i : Nat) :
    Nat × Nat × Nat × Nat :=
  let (a, b, c, d) := st
  let f :=
    if i < 16 then (b &&& c) ||| ((b ^^^ 0xffffffff) &&& d)
    else if i < 32 then (d &&& b) ||| ((d ^^^ 0xffffffff) &&& c)
    else if i < 48 then b ^^^ c ^^^ d
    else c ^^^ (b ||| (d ^^^ 0xffffffff))
  let g :=
    if i < 16 then i
    else if i < 32 then (5 * i + 1) % 16
    else if i < 48 then (3 * i + 5) % 16
    else (7 * i) % 16
  let tmp := w32 (f + a + md5K.getD i 0 + M g)
  (d, w32 (b + rotl32 tmp (md5S.getD i 0)), b, c)

def md5ProcessChunk (st : Nat × Nat × Nat × Nat) (chunk : List Nat) :
    Nat × Nat × Nat × Nat :=
  let (a, b, c, d) := (List.range 64).foldl (md5Round (leWord chunk)) st
  (w32 (st.1 + a), w32 (st.2.1 + b), w32 (st.2.2.1 + c), w32 (st.2.2.2 + d))

/-- MD5 padding: 0x80, zeros to 56 mod 64, then the 64-bit little-endian
    bit length. -/
def md5Pad (msg : List Nat) : List Nat :=
  let zeros := (56 - (msg.length + 1) % 64 + 64) % 64
  msg ++ [128] ++ List.replicate zeros 0 ++
    (List.range 8).map (fun i => ((8 * msg.length) >>> (8 * i)) % 256)

def splitChunksGo : Nat → List Nat → List (List Nat)
  | _, [] => []
  | 0, _ => []
  | fuel + 1, x :: rest => (x :: rest).take 64 :: splitChunksGo fuel ((x :: rest).drop 64)

/-- Split a byte list into 64-byte chunks (the fuel is the list length,
    which bounds the number of chunks). -/
def splitChunks (l : List Nat) : List (List Nat) := splitChunksGo l.length l

/-- Little-endian bytes of a 32-bit word. -/
def leBytes4 (v : Nat) : List Nat :=
  (List.range 4).map (fun i => (v >>> (8 * i)) % 256)

/-- The MD5 digest (16 bytes) of a byte sequence. -/
def md5 (msg : List Nat) : List Nat :=
  let (a, b, c, d) := (splitChunks (md5Pad msg)).foldl md5ProcessChunk
    (0x67452301, 0xefcdab89, 0x98badcfe, 0x10325476)
  leBytes4 a ++ leBytes4 b ++ leBytes4 c ++ leBytes4 d

/-! ## Hex encoding and decoding (encoding/hex) -/
def hexDigitChar (n : Nat) : Char :=
  if n < 10 then Char.ofNat (48 + n) else Char.ofNat (87 + n)

/-- Lowercase hex rendering of a byte list, as produced by a %x format verb. -/
def hexEncodeBytes (l : List Nat) : String :=
  String.mk (l.foldr (fun b acc => hexDigitChar (b / 16) :: hexDigitChar (b % 16) :: acc) [])

/-- The fingerprint of a cache key: lowercase hex MD5 of its bytes
    (Go: fmt.Sprintf of md5.Sum of the key; keys here are ASCII so the
    byte sequence is the character codes). -/
def md5hex (s : String) : String :=
  hexEncodeBytes (md5 (s.toList.map Char.toNat))

/-- Decoding one hex digit, as Go fromHexChar does: digits, lowercase
    letters a-f AND uppercase letters A-F are all accepted. -/
def fromHexChar (c : Char) : Option Nat :=
  if 48 ≤ c.toNat ∧ c.toNat ≤ 57 then some (c.toNat - 48)
  else if 97 ≤ c.toNat ∧ c.toNat ≤ 102 then some (c.toNat - 87)
  else if 65 ≤ c.toNat ∧ c.toNat ≤ 70 then some (c.toNat - 55)
  else none

/-- hex.DecodeString: pairs of hex digits to bytes; odd length or an
    invalid digit is an error. -/
def hexDecode : List Char → Option (List Nat)
  | [] => some []
  | [_] => none
  | a :: b :: rest =>
    match fromHexChar a, fromHexChar b, hexDecode rest with
    | some x, some y, some r => some ((16 * x + y) :: r)
    | _, _, _ => none

/-- strings.Trim with a double-quote cutset: removes every leading and
    trailing double-quote character. -/
def trimQuotes (l : List Char) : List Char :=
  ((l.dropWhile (· = '"')).reverse.dropWhile (· = '"')).reverse

/-- convertETagToChecksum from downloader.go: trim surrounding quotes,
    require length 32, hex-decode.  Returns the decoded bytes when the
    ETag is a checksum. -/
def convertETagToChecksum (etag : String) : Option (List Nat) :=
  let t := trimQuotes etag.toList
  if t.length ≠ 32 then none else hexDecode t

/-! ## Downloader (downloader.go) -/
def MAX_DOWNLOAD_ATTEMPTS : Nat := 3

/-- CachingInfoType from cached_downloader.go. -/
structure CachingInfoType where
  ETag : String
  LastModified : String
deriving DecidableEq, Repr

def CachingInfoType.zero : CachingInfoType := ⟨"", ""⟩

/-- isCacheable from cached_downloader.go. -/
def CachingInfoType.isCacheable (c : CachingInfoType) : Bool :=
  c.ETag ≠ "" || c.LastModified ≠ ""

/-- The errors a download attempt can produce.  DownloadCancelledError
    carries its source phase string (the duration and byte count are
    real-time data, irrelevant to control flow). -/
inductive DlError where
  | requestErr
  | transportErr
  | cancelledErr (source : String)
  | downloadFailed (status : Nat)
  | checksumMismatch
  | createDestErr
  | seekErr
  | truncateErr
  | copyErr
deriving DecidableEq, Repr

/-- The Go type assertion err.(*DownloadCancelledError). -/
def DlError.isCancelled : DlError → Bool
  | .cancelledErr _ => true
  | _ => false

/-- An HTTP response as observed by fetchToFile: status, the two validator
    headers, and the fully streamed body bytes. -/
structure HttpResponse where
  statusCode : Nat
  etagHeader : String
  lastModifiedHeader : String
  body : List Nat
deriving DecidableEq, Repr

/-- The environment of one fetchToFile call: the result of each effectful
    step, in source order.  response none means client.Do returned an error;
    the cancelled flags say whether the cancel channel was readable when the
    corresponding error was inspected. -/
structure FetchEnv where
  requestOk : Bool
  response : Option HttpResponse
  cancelledDuringDo : Bool
  createDestOk : Bool
  destName : String
  seekOk : Bool
  truncateOk : Bool
  copyOk : Bool
  cancelledDuringCopy : Bool
deriving DecidableEq, Repr

instance {ε α : Type} [DecidableEq ε] [DecidableEq α] : DecidableEq (Except ε α) :=
  fun a b =>
    match a, b with
    | .ok x, .ok y => if h : x = y then .isTrue (by rw [h]) else .isFalse (by simp [h])
    | .error x, .error y => if h : x = y then .isTrue (by rw [h]) else .isFalse (by simp [h])
    | .ok _, .error _ => .isFalse (by simp)
    | .error _, .ok _ => .isFalse (by simp)

/-- What one fetchToFile call returns and what it did to its temp file:
    result mirrors the Go triple (every error return site returns an empty
    path and a zero validator, so Except is the exact shape); tempCreated
    records that createDestination succeeded, tempRemoved that the deferred
    os.Remove ran (it runs exactly when the call returns an error). -/
structure FetchOutcome where
  result : Except DlError (String × CachingInfoType)
  tempCreated : Bool
  tempRemoved : Bool
deriving DecidableEq, Repr

/-- fetchToFile from downloader.go over an explicit environment. -/
def fetchToFile (env : FetchEnv) : FetchOutcome :=
  if !env.requestOk then ⟨.error .requestErr, false, false⟩
  else
    match env.response with
    | none =>
      ⟨.error (if env.cancelledDuringDo then .cancelledErr "fetch-request" else .transportErr),
        false, false⟩
    | some resp =>
      if resp.statusCode = 304 then ⟨.ok ("", CachingInfoType.zero), false, false⟩
      else if resp.statusCode ≠ 200 then
        ⟨.error (.downloadFailed resp.statusCode), false, false⟩
      else if !env.createDestOk then ⟨.error .createDestErr, false, false⟩
      else if !env.seekOk then ⟨.error .seekErr, true, true⟩
      else if !env.truncateOk then ⟨.error .truncateErr, true, true⟩
      else if !env.copyOk then
        ⟨.error (if env.cancelledDuringCopy then .cancelledErr "copy-body" else .copyErr),
          true, true⟩
      else
        let cachingInfoOut : CachingInfoType := ⟨resp.etagHeader, resp.lastModifiedHeader⟩
        match convertETagToChecksum resp.etagHeader with
        | some etagChecksum =>
          if etagChecksum ≠ md5 resp.body then ⟨.error .checksumMismatch, true, true⟩
          else ⟨.ok (env.destName, cachingInfoOut), true, false⟩
        | none => ⟨.ok (env.destName, cachingInfoOut), true, false⟩

/-- The for-loop of Download: attempt counts up while fuel (initially
    MAX_DOWNLOAD_ATTEMPTS, so fuel = MAX_DOWNLOAD_ATTEMPTS - attempt)
    counts down; prev holds the loop variables from the previous iteration.
    Returns the final outcome and the list of attempt indices executed.
    The loop stops on a nil error or on a DownloadCancelledError. -/
def downloadLoopGo (envs : Nat → FetchEnv) (prev : FetchOutcome) :
    Nat → Nat → FetchOutcome × List Nat
  | _, 0 => (prev, [])
  | attempt, fuel + 1 =>
    let o := fetchToFile (envs attempt)
    match o.result with
    | .ok _ => (o, [attempt])
    | .error e =>
      if e.isCancelled then (o, [attempt])
      else
        let (fin, rest) := downloadLoopGo envs o (attempt + 1) fuel
        (fin, attempt :: rest)

/-- The triple Download returns: (path, cachingInfoOut, err). -/
structure DownloadResult where
  path : String
  cachingInfoOut : CachingInfoType
  err : Option DlError
deriving DecidableEq, Repr

/-- Download from downloader.go: barrier acquisition (cancellable), then the
    retry loop, then the final error normalisation to an empty path and zero
    validator.  Also returns the list of attempt indices executed. -/
def Download (cancelledAtBarrier : Bool) (envs : Nat → FetchEnv) :
    DownloadResult × List Nat :=
  if cancelledAtBarrier then
    (⟨"", CachingInfoType.zero, some (.cancelledErr "download-barrier")⟩, [])
  else
    let r := downloadLoopGo envs ⟨.ok ("", CachingInfoType.zero), false, false⟩
      0 MAX_DOWNLOAD_ATTEMPTS
    ((match r.1.result with
      | .error e => ⟨"", CachingInfoType.zero, some e⟩
      | .ok pci => ⟨pci.1, pci.2, none⟩),
     r.2)

/-! ## Coordinator (cached_downloader.go)

    The file cache is an external collaborator here (its implementation
    file is not part of this tree); each call site's result is a field of
    the environment, and the cache-mutating calls the coordinator makes
    are recorded in an event list, in source order. -/
/-- The sentinel errors of the file cache. -/
inductive CacheErr where
  | notEnoughSpace
  | notCacheable
  | entryNotFound
  | other (code : Nat)
deriving DecidableEq, Repr

/-- Every error shape a coordinator call can surface. -/
inductive CoErr where
  | dl (e : DlError)
  | statErr
  | tmpFileErr
  | tmpCloseErr
  | transformErr
  | cache (e : CacheErr)
  | openErr
deriving DecidableEq, Repr

/-- The download struct of cached_downloader.go: the transformed file's
    path, the transformer-reported size, and the new validator. -/
structure DownloadStruct where
  path : String
  size : Int
  cachingInfo : CachingInfoType
deriving DecidableEq, Repr

def DownloadStruct.empty : DownloadStruct := ⟨"", 0, CachingInfoType.zero⟩

/-- The environment of one populateCache call: the inputs of the inner
    Download call and the results of the stat / temp-file / transformer
    steps that follow it. -/
structure PopulateEnv where
  cancelledAtBarrier : Bool
  fetchEnvs : Nat → FetchEnv
  statSize : Option Int
  tmpOk : Bool
  transformedName : String
  closeOk : Bool
  transformResult : Except Unit Int

/-- The quadruple populateCache returns: (download, cacheIsWarm, size, err).
    size is the byte size of the raw downloaded file (os.Stat before the
    transformer runs); download.size is the transformer-reported size. -/
structure PopulateResult where
  dl : DownloadStruct
  cacheIsWarm : Bool
  size : Int
  err : Option CoErr
deriving DecidableEq, Repr

/-- populateCache from cached_downloader.go. -/
def populateCache (env : PopulateEnv) : PopulateResult :=
  let dlRes := (Download env.cancelledAtBarrier env.fetchEnvs).1
  match dlRes.err with
  | some e => ⟨.empty, false, 0, some (.dl e)⟩
  | none =>
    if dlRes.path = "" then ⟨.empty, true, 0, none⟩
    else
      match env.statSize with
      | none => ⟨.empty, false, 0, some .statErr⟩
      | some rawSize =>
        if !env.tmpOk then ⟨.empty, false, 0, some .tmpFileErr⟩
        else if !env.closeOk then ⟨.empty, false, 0, some .tmpCloseErr⟩
        else
          match env.transformResult with
          | .error _ => ⟨.empty, false, 0, some .transformErr⟩
          | .ok cachedSize =>
            ⟨⟨env.transformedName, cachedSize, dlRes.cachingInfoOut⟩, false, rawSize, none⟩

/-- A stream handle returned by Fetch: either a cache-owned CachedFile
    (tagged by the cache call that produced it) or a delete-on-close handle
    over an uncached temp path (tempFileRemoveOnClose). -/
inductive FileHandle where
  | fromCache (tag : Nat)
  | removeOnClose (path : String)
deriving DecidableEq, Repr

/-- The cache-mutating calls the coordinator performs, recorded in order. -/
inductive CacheEvent where
  | closeHandle (tag : Nat)
  | add (key path : String) (size : Int) (info : CachingInfoType)
  | addDir (key path : String) (size : Int) (info : CachingInfoType)
  | remove (key : String)
  | closeDir (key dir : String)
deriving DecidableEq, Repr

/-- What cache.Get(cacheKey) returned: a handle (none = nil reader), the
    stored validator, and the error (EntryNotFound on a miss). -/
structure GetResult where
  reader : Option Nat
  cachingInfo : CachingInfoType
  getErr : Option CacheErr
deriving DecidableEq, Repr

/-- The environment of one fetchCachedFile call. -/
structure FetchCachedEnv where
  limiterCancelled : Bool
  get : GetResult
  populate : PopulateEnv
  addResult : Except CacheErr Nat
  openOk : Bool

/-- The triple fetchCachedFile returns plus the recorded cache events. -/
structure FetchFileResult where
  stream : Option FileHandle
  size : Int
  err : Option CoErr
  events : List CacheEvent
deriving DecidableEq, Repr

def closeEvents : Option Nat → List CacheEvent
  | none => []
  | some tag => [.closeHandle tag]

/-- fetchCachedFile from cached_downloader.go, over the md5hex fingerprint
    of the caller's cache key. -/
def fetchCachedFile (cacheKey : String) (env : FetchCachedEnv) : FetchFileResult :=
  if env.limiterCancelled then
    ⟨none, 0, some (.dl (.cancelledErr "acquire-limiter")), []⟩
  else
    let g := env.get
    let pr := populateCache env.populate
    match pr.err with
    | some e => ⟨none, 0, some e, closeEvents g.reader⟩
    | none =>
      if pr.cacheIsWarm then
        ⟨g.reader.map .fromCache, 0, g.getErr.map .cache, []⟩
      else
        let ev0 := closeEvents g.reader
        if pr.dl.cachingInfo.isCacheable then
          let addEv := CacheEvent.add cacheKey pr.dl.path pr.dl.size pr.dl.cachingInfo
          match env.addResult with
          | .error .notEnoughSpace =>
            if env.openOk then
              ⟨some (.removeOnClose pr.dl.path), pr.size, none, ev0 ++ [addEv]⟩
            else ⟨none, pr.size, some .openErr, ev0 ++ [addEv]⟩
          | .error e => ⟨none, pr.size, some (.cache e), ev0 ++ [addEv]⟩
          | .ok tag => ⟨some (.fromCache tag), pr.size, none, ev0 ++ [addEv]⟩
        else
          if env.openOk then
            ⟨some (.removeOnClose pr.dl.path), pr.size, none, ev0 ++ [.remove cacheKey]⟩
          else ⟨none, pr.size, some .openErr, ev0 ++ [.remove cacheKey]⟩

/-- fetchUncachedFile from cached_downloader.go (the empty-cache-key path):
    download, then wrap the transformed temp file delete-on-close. -/
def fetchUncachedFile (env : PopulateEnv) (openOk : Bool) : FetchFileResult :=
  let pr := populateCache env
  match pr.err with
  | some e => ⟨none, 0, some e, []⟩
  | none =>
    if openOk then ⟨some (.removeOnClose pr.dl.path), pr.size, none, []⟩
    else ⟨none, pr.size, some .openErr, []⟩

/-- Fetch from cached_downloader.go: empty cache key means uncached fetch,
    otherwise the key is fingerprinted with md5hex and the cached path
    runs under the per-fingerprint gate. -/
def Fetch (cacheKey : String) (uncachedEnv : PopulateEnv) (uncachedOpenOk : Bool)
    (cachedEnv : FetchCachedEnv) : FetchFileResult :=
  if cacheKey = "" then fetchUncachedFile uncachedEnv uncachedOpenOk
  else fetchCachedFile (md5hex cacheKey) cachedEnv

/-- What cache.GetDirectory(cacheKey) returned: a directory path ("" = no
    current directory), the stored validator, and the error. -/
structure GetDirResult where
  dir : String
  cachingInfo : CachingInfoType
  getErr : Option CacheErr
deriving DecidableEq, Repr

/-- The environment of one fetchCachedDirectory call. -/
structure FetchDirEnv where
  limiterCancelled : Bool
  getDir : GetDirResult
  populate : PopulateEnv
  addDirResult : Except CacheErr String

/-- The pair fetchCachedDirectory returns plus the recorded cache events. -/
structure FetchDirResult where
  dirPath : String
  err : Option CoErr
  events : List CacheEvent
deriving DecidableEq, Repr

def closeDirEvents (cacheKey dir : String) : List CacheEvent :=
  if dir = "" then [] else [.closeDir cacheKey dir]

/-- fetchCachedDirectory from cached_downloader.go. -/
def fetchCachedDirectory (cacheKey : String) (env : FetchDirEnv) : FetchDirResult :=
  if env.limiterCancelled then
    ⟨"", some (.dl (.cancelledErr "acquire-limiter")), []⟩
  else
    let g := env.getDir
    if g.getErr = some .notEnoughSpace then ⟨"", some (.cache .notEnoughSpace), []⟩
    else
      let pr := populateCache env.populate
      match pr.err with
      | some e => ⟨"", some e, closeDirEvents cacheKey g.dir⟩
      | none =>
        if pr.cacheIsWarm then ⟨g.dir, g.getErr.map .cache, []⟩
        else
          let ev0 := closeDirEvents cacheKey g.dir
          if pr.dl.cachingInfo.isCacheable then
            let addEv := CacheEvent.addDir cacheKey pr.dl.path pr.dl.size pr.dl.cachingInfo
            match env.addDirResult with
            | .error .notEnoughSpace => ⟨"", some (.cache .notEnoughSpace), ev0 ++ [addEv]⟩
            | .error e => ⟨"", some (.cache e), ev0 ++ [addEv]⟩
            | .ok d => ⟨d, none, ev0 ++ [addEv]⟩
          else ⟨"", some (.cache .notCacheable), ev0 ++ [.remove cacheKey]⟩

/-- FetchAsDirectory from cached_downloader.go: always fingerprints the key
    (there is no uncached directory path). -/
def FetchAsDirectory (cacheKey : String) (env : FetchDirEnv) : FetchDirResult :=
  fetchCachedDirectory (md5hex cacheKey) env

/-! ## Constructor (New from cached_downloader.go)

    A flat filesystem model: an association list from directory path to
    the list of entry names it holds (paths are assumed non-nested, as the
    cached and uncached directories are in this repository). -/
def FS : Type := List (String × List String)

/-- os.RemoveAll on a directory path. -/
def removeAll (fs : FS) (p : String) : FS := fs.filter (fun e => e.1 ≠ p)

/-- os.MkdirAll: creates the directory empty when absent, keeps it as is
    when present. -/
def mkdirAll (fs : FS) (p : String) : FS :=
  if (fs.lookup p).isSome then fs else (p, []) :: fs

/-- New from cached_downloader.go: os.RemoveAll(cachedPath) followed by
    os.MkdirAll(cachedPath, 0770).  The uncached path is a parameter of the
    constructor but no filesystem call touches it. -/
def New (fs : FS) (cachedPath : String) (uncachedPath : String) : FS :=
  let _ := uncachedPath
  mkdirAll (removeAll fs cachedPath) cachedPath

/-! ## Per-fingerprint single-flight gate
    (acquireLimiter / releaseLimiter from cached_downloader.go)

    Each lock-protected region of the Go code is one atomic step of a
    transition system.  A thread in the holding state is inside the
    critical section of fetchCachedFile / fetchCachedDirectory for its
    fingerprint — the section that probes the cache and performs the
    origin download — so a unique holder per fingerprint means at most
    one in-flight download per cache key. -/
/-- The status of one caller with respect to the gate map. -/
inductive TState where
  | start (k : String)
  | waiting (k : String) (g : Nat)
  | holding (k : String) (g : Nat)
  | done
deriving DecidableEq, Repr

/-- The shared state: the inProgress map (fingerprint to gate channel),
    the set of closed gate channels, a fresh-channel counter, and each
    thread's status. -/
structure GateState where
  inProgress : String → Option Nat
  closedGates : List Nat
  nextGate : Nat
  threads : Nat → TState

def updThread (f : Nat → TState) (t : Nat) (v : TState) : Nat → TState :=
  fun t' => if t' = t then v else f t'

def updKey (f : String → Option Nat) (k : String) (v : Option Nat) :
    String → Option Nat :=
  fun k' => if k' = k then v else f k'

/-- One atomic step.  install and observe are the two outcomes of the
    lock-protected probe in acquireLimiter; wake is a waiter returning from
    its select after the channel it waited on was closed (it loops back to
    the probe); cancelWait is the cancel branch of that select; release is
    releaseLimiter (delete from the map, close the channel). -/
inductive GateStep : GateState → GateState → Prop where
  | install (s : GateState) (t : Nat) (k : String) :
      s.threads t = .start k →
      s.inProgress k = none →
      GateStep s ⟨updKey s.inProgress k (some s.nextGate), s.closedGates,
        s.nextGate + 1, updThread s.threads t (.holding k s.nextGate)⟩
  | observe (s : GateState) (t : Nat) (k : String) (g : Nat) :
      s.threads t = .start k →
      s.inProgress k = some g →
      GateStep s ⟨s.inProgress, s.closedGates, s.nextGate,
        updThread s.threads t (.waiting k g)⟩
  | wake (s : GateState) (t : Nat) (k : String) (g : Nat) :
      s.threads t = .waiting k g →
      g ∈ s.closedGates →
      GateStep s ⟨s.inProgress, s.closedGates, s.nextGate,
        updThread s.threads t (.start k)⟩
  | cancelWait (s : GateState) (t : Nat) (k : String) (g : Nat) :
      s.threads t = .waiting k g →
      GateStep s ⟨s.inProgress, s.closedGates, s.nextGate,
        updThread s.threads t .done⟩
  | release (s : GateState) (t : Nat) (k : String) (g : Nat) :
      s.threads t = .holding k g →
      GateStep s ⟨updKey s.inProgress k none, g :: s.closedGates, s.nextGate,
        updThread s.threads t .done⟩

/-- An initial state: empty gate map, no closed channels, every thread
    either about to fetch some key or inactive. -/
def GateInit (s : GateState) : Prop :=
  (∀ k, s.inProgress k = none) ∧ s.closedGates = [] ∧ s.nextGate = 0 ∧
    ∀ t, (∃ k, s.threads t = .start k) ∨ s.threads t = .done

inductive GateReachable : GateState → Prop where
  | init (s : GateState) : GateInit s → GateReachable s
  | step (s s' : GateState) : GateReachable s → GateStep s s' → GateReachable s'

/-- The inductive invariant: a holder's gate is the one installed in the
    map and is not yet closed; a gate is held by at most one thread; and
    every gate mentioned anywhere is below the freshness counter. -/
def GateInv (s : GateState) : Prop :=
  (∀ t k g, s.threads t = .holding k g → s.inProgress k = some g ∧ g ∉ s.closedGates) ∧
  (∀ t t' k k' g, s.threads t = .holding k g → s.threads t' = .holding k' g → t = t') ∧
  (∀ t k g, s.threads t = .holding k g ∨ s.threads t = .waiting k g → g < s.nextGate) ∧
  (∀ k g, s.inProgress k = some g → g < s.nextGate) ∧
  (∀ g, g ∈ s.closedGates → g < s.nextGate)

/-! ## Lemmas about the download retry loop -/
/-- An attempt stops the retry loop: it returned no error, or it returned a
    DownloadCancelledError. -/
def attemptStops (env : FetchEnv) : Bool :=
  match (fetchToFile env).result with
  | .ok _ => true
  | .error e => e.isCancelled

/-- Boolean success test for an Except value. -/
def exceptIsOk {ε α : Type} : Except ε α → Bool
  | .ok _ => true
  | .error _ => false

/-- A fetch environment whose response has the given status. -/
def fullEnv (r : HttpResponse) (name : String) : FetchEnv :=
  ⟨true, some r, false, true, name, true, true, true, false⟩

def env500 : FetchEnv := fullEnv ⟨500, "", "", []⟩ "e500.tmp"

/-- The condition the claim states: a character of a lowercase hex string. -/
def isLowerHexChar (c : Char) : Bool :=
  (48 ≤ c.toNat && c.toNat ≤ 57) || (97 ≤ c.toNat && c.toNat ≤ 102)

def etagUpper : String := "AAAAAAAAAAAAAAAAAAAAAAAAAAAAAAAA"

def cexEnvC3 : FetchEnv := fullEnv ⟨200, etagUpper, "", []⟩ "cex3.tmp"

def etagLowerOk : String := "d41d8cd98f00b204e9800998ecf8427e"

def witEnvC3 : FetchEnv := fullEnv ⟨200, etagLowerOk, "", []⟩ "wit3.tmp"

def cexEnvC4 : FetchEnv := fullEnv ⟨200, "00000000000000000000000000000000", "", []⟩ "cex4.tmp"

def witEnvC4 : FetchEnv := fullEnv ⟨304, "", "", []⟩ "wit4.tmp"

/-! ## Concrete environments for the coordinator witnesses -/
/-- A populate environment whose download succeeds with fresh cacheable
    bytes (ETag present, not an MD5-shaped one). -/
def pEnvFresh : PopulateEnv :=
  ⟨false, fun _ => fullEnv ⟨200, "etag-w", "", [55]⟩ "dl.tmp",
    some 1, true, "trans.tmp", true, .ok 9⟩

/-- A populate environment whose download succeeds with fresh bytes and no
    validator headers at all (not cacheable). -/
def pEnvFreshNC : PopulateEnv :=
  ⟨false, fun _ => fullEnv ⟨200, "", "", [55]⟩ "dlnc.tmp",
    some 1, true, "transnc.tmp", true, .ok 9⟩

/-- A populate environment whose download reports 304 (warm cache). -/
def pEnvWarm : PopulateEnv :=
  ⟨false, fun _ => fullEnv ⟨304, "", "", []⟩ "w.tmp",
    some 0, true, "tw.tmp", true, .ok 0⟩

def cenvC1 : FetchCachedEnv :=
  ⟨false, ⟨some 7, ⟨"eo", ""⟩, none⟩, pEnvFresh, .error .notEnoughSpace, true⟩

def denvC1 : FetchDirEnv :=
  ⟨false, ⟨"old-dir", ⟨"eo", ""⟩, none⟩, pEnvFresh, .error .notEnoughSpace⟩

def cenvC5 : FetchCachedEnv :=
  ⟨false, ⟨some 5, ⟨"e0", ""⟩, none⟩, pEnvWarm, .error .notEnoughSpace, true⟩

def cenvC6 : FetchCachedEnv :=
  ⟨false, ⟨some 4, ⟨"", ""⟩, some .entryNotFound⟩, pEnvFreshNC, .ok 3, true⟩

def denvC6 : FetchDirEnv :=
  ⟨false, ⟨"", ⟨"", ""⟩, some .entryNotFound⟩, pEnvFreshNC, .ok "xdir"⟩

def cenvC10 : FetchCachedEnv :=
  ⟨false, ⟨some 2, ⟨"eo", ""⟩, none⟩, pEnvFresh, .ok 11, true⟩

def fs0 : FS := [("u9", ["j"])]

def gateThreads0 : Nat → TState := fun t => if t = 0 then .start "k" else .done

def gateS0 : GateState := ⟨fun _ => none, [], 0, gateThreads0⟩

def gateS1 : GateState :=
  ⟨updKey gateS0.inProgress "k" (some gateS0.nextGate), gateS0.closedGates,
    gateS0.nextGate + 1, updThread gateS0.threads 0 (.holding "k" gateS0.nextGate)⟩

/-- Sanity anchor: the well-known MD5 digest of the empty message. -/
theorem md5_nil :
    md5 [] = [0xd4, 0x1d, 0x8c, 0xd9, 0x8f, 0x00, 0xb2, 0x04,
              0xe9, 0x80, 0x09, 0x98, 0xec, 0xf8, 0x42, 0x7e] := by decide

theorem gateInv_init (s : GateState) (h : GateInit s) : GateInv s := by
  obtain ⟨hip, hcl, hng, hth⟩ := h
  refine ⟨?_, ?_, ?_, ?_, ?_⟩
  · intro t k g ht
    rcases hth t with ⟨k', hk'⟩ | hd
    · rw [ht] at hk'; simp at hk'
    · rw [ht] at hd; simp at hd
  · intro t t' k k' g ht ht'
    rcases hth t with ⟨k'', hk''⟩ | hd
    · rw [ht] at hk''; simp at hk''
    · rw [ht] at hd; simp at hd
  · intro t k g ht
    rcases ht with ht | ht <;>
      rcases hth t with ⟨k'', hk''⟩ | hd <;>
        first
          | (rw [ht] at hk''; simp at hk'')
          | (rw [ht] at hd; simp at hd)
  · intro k g hk
    rw [hip k] at hk; simp at hk
  · intro g hg
    rw [hcl] at hg; simp at hg

/-- A thread-state update that does not create a holder preserves the
    invariant, provided a new waiting state refers to the installed gate. -/
theorem gateInv_updThread_nonholding (s : GateState) (t : Nat) (v : TState)
    (hinv : GateInv s)
    (hwait : ∀ k g, v = .waiting k g → s.inProgress k = some g)
    (hnothold : ∀ k g, v ≠ .holding k g) :
    GateInv ⟨s.inProgress, s.closedGates, s.nextGate, updThread s.threads t v⟩ := by
  obtain ⟨inv1, inv2, inv3, inv4, inv5⟩ := hinv
  refine ⟨?_, ?_, ?_, ?_, ?_⟩ <;> dsimp only
  · intro t' k' g' ht'
    rw [updThread] at ht'
    by_cases het : t' = t
    · rw [if_pos het] at ht'
      exact absurd ht' (hnothold k' g')
    · rw [if_neg het] at ht'
      exact inv1 t' k' g' ht'
  · intro t1 t2 k1 k2 g' ht1 ht2
    rw [updThread] at ht1 ht2
    by_cases h1 : t1 = t
    · rw [if_pos h1] at ht1
      exact absurd ht1 (hnothold k1 g')
    · rw [if_neg h1] at ht1
      by_cases h2 : t2 = t
      · rw [if_pos h2] at ht2
        exact absurd ht2 (hnothold k2 g')
      · rw [if_neg h2] at ht2
        exact inv2 t1 t2 k1 k2 g' ht1 ht2
  · intro t' k' g' ht'
    rw [updThread] at ht'
    by_cases het : t' = t
    · rw [if_pos het] at ht'
      rcases ht' with h | h
      · exact absurd h (hnothold k' g')
      · exact inv4 k' g' (hwait k' g' h)
    · rw [if_neg het] at ht'
      exact inv3 t' k' g' ht'
  · exact inv4
  · exact inv5

theorem gateInv_step (s s' : GateState) (hinv : GateInv s) (hstep : GateStep s s') :
    GateInv s' := by
  obtain ⟨inv1, inv2, inv3, inv4, inv5⟩ := hinv
  cases hstep with
  | install t k hts hip =>
    refine ⟨?_, ?_, ?_, ?_, ?_⟩ <;> dsimp only
    · intro t' k' g' ht'
      rw [updThread] at ht'
      by_cases het : t' = t
      · rw [if_pos het] at ht'
        injection ht' with hk' hg'
        subst hk'; subst hg'
        constructor
        · rw [updKey, if_pos rfl]
        · intro hmem
          exact absurd (inv5 _ hmem) (by omega)
      · rw [if_neg het] at ht'
        obtain ⟨hmap, hclo⟩ := inv1 t' k' g' ht'
        have hkk : k' ≠ k := by
          intro he; subst he; rw [hip] at hmap; cases hmap
        refine ⟨?_, hclo⟩
        rw [updKey, if_neg hkk]
        exact hmap
    · intro t1 t2 k1 k2 g' ht1 ht2
      rw [updThread] at ht1 ht2
      by_cases h1 : t1 = t <;> by_cases h2 : t2 = t
      · rw [h1, h2]
      · rw [if_pos h1] at ht1
        rw [if_neg h2] at ht2
        injection ht1 with hk1 hg1
        have := inv3 t2 k2 g' (Or.inl ht2)
        omega
      · rw [if_neg h1] at ht1
        rw [if_pos h2] at ht2
        injection ht2 with hk2 hg2
        have := inv3 t1 k1 g' (Or.inl ht1)
        omega
      · rw [if_neg h1] at ht1
        rw [if_neg h2] at ht2
        exact inv2 t1 t2 k1 k2 g' ht1 ht2
    · intro t' k' g' ht'
      rw [updThread] at ht'
      by_cases het : t' = t
      · rw [if_pos het] at ht'
        rcases ht' with h | h
        · injection h with hk' hg'; omega
        · cases h
      · rw [if_neg het] at ht'
        have := inv3 t' k' g' ht'
        omega
    · intro k' g' hk'
      rw [updKey] at hk'
      by_cases hkk : k' = k
      · rw [if_pos hkk] at hk'
        injection hk' with hg'
        omega
      · rw [if_neg hkk] at hk'
        have := inv4 k' g' hk'
        omega
    · intro g' hg'
      have := inv5 g' hg'
      omega
  | observe t k g hts hip =>
    exact gateInv_updThread_nonholding s t (.waiting k g) ⟨inv1, inv2, inv3, inv4, inv5⟩
      (by intro k' g' h; injection h with h1 h2; rw [← h1, ← h2]; exact hip)
      (by intro k' g' h; cases h)
  | wake t k g hts hcl =>
    exact gateInv_updThread_nonholding s t (.start k) ⟨inv1, inv2, inv3, inv4, inv5⟩
      (by intro k' g' h; cases h) (by intro k' g' h; cases h)
  | cancelWait t k g hts =>
    exact gateInv_updThread_nonholding s t .done ⟨inv1, inv2, inv3, inv4, inv5⟩
      (by intro k' g' h; cases h) (by intro k' g' h; cases h)
  | release t k g hts =>
    refine ⟨?_, ?_, ?_, ?_, ?_⟩ <;> dsimp only
    · intro t' k' g' ht'
      rw [updThread] at ht'
      by_cases het : t' = t
      · rw [if_pos het] at ht'
        cases ht'
      · rw [if_neg het] at ht'
        obtain ⟨hmap, hclo⟩ := inv1 t' k' g' ht'
        have hgg : g' ≠ g := by
          intro he; subst he
          exact het (inv2 t' t k' k g' ht' hts)
        have hkk : k' ≠ k := by
          intro he; subst he
          obtain ⟨hmap2, _⟩ := inv1 t k' g hts
          rw [hmap] at hmap2
          injection hmap2 with he2
          exact hgg he2
        constructor
        · rw [updKey, if_neg hkk]
          exact hmap
        · intro hmem
          rcases List.mem_cons.mp hmem with h | h
          · exact hgg h
          · exact hclo h
    · intro t1 t2 k1 k2 g' ht1 ht2
      rw [updThread] at ht1 ht2
      by_cases h1 : t1 = t
      · rw [if_pos h1] at ht1; cases ht1
      · rw [if_neg h1] at ht1
        by_cases h2 : t2 = t
        · rw [if_pos h2] at ht2; cases ht2
        · rw [if_neg h2] at ht2
          exact inv2 t1 t2 k1 k2 g' ht1 ht2
    · intro t' k' g' ht'
      rw [updThread] at ht'
      by_cases het : t' = t
      · rw [if_pos het] at ht'
        rcases ht' with h | h <;> cases h
      · rw [if_neg het] at ht'
        exact inv3 t' k' g' ht'
    · intro k' g' hk'
      rw [updKey] at hk'
      by_cases hkk : k' = k
      · rw [if_pos hkk] at hk'
        cases hk'
      · rw [if_neg hkk] at hk'
        exact inv4 k' g' hk'
    · intro g' hg'
      rcases List.mem_cons.mp hg' with h | h
      · subst h
        exact inv3 t k g' (Or.inl hts)
      · exact inv5 g' h

theorem gateInv_reachable (s : GateState) (h : GateReachable s) : GateInv s := by
  induction h with
  | init s hi => exact gateInv_init s hi
  | step s s' _ hstep ih => exact gateInv_step s s' ih hstep

theorem downloadLoopGo_succ (envs : Nat → FetchEnv) (prev : FetchOutcome)
    (a n : Nat) :
    downloadLoopGo envs prev a (n + 1) =
      (match (fetchToFile (envs a)).result with
       | .ok _ => (fetchToFile (envs a), [a])
       | .error e =>
         if e.isCancelled then (fetchToFile (envs a), [a])
         else ((downloadLoopGo envs (fetchToFile (envs a)) (a + 1) n).1,
           a :: (downloadLoopGo envs (fetchToFile (envs a)) (a + 1) n).2)) := rfl

theorem downloadLoopGo_length (envs : Nat → FetchEnv) (prev : FetchOutcome)
    (a fuel : Nat) : (downloadLoopGo envs prev a fuel).2.length ≤ fuel := by
  induction fuel generalizing a prev with
  | zero => simp [downloadLoopGo]
  | succ n ih =>
    rw [downloadLoopGo_succ]
    rcases h : (fetchToFile (envs a)).result with e | p
    · by_cases hc : e.isCancelled
      · simp [hc]
      · simp only [hc, Bool.false_eq_true, if_false]
        have := ih (fetchToFile (envs a)) (a + 1)
        simp only [List.length_cons]
        omega
    · simp

theorem attemptStops_of_ok (envs : Nat → FetchEnv) (a : Nat) (p : String × CachingInfoType)
    (h : (fetchToFile (envs a)).result = .ok p) : attemptStops (envs a) = true := by
  unfold attemptStops
  rw [h]

theorem attemptStops_of_cancelled (envs : Nat → FetchEnv) (a : Nat) (e : DlError)
    (h : (fetchToFile (envs a)).result = .error e) (hc : e.isCancelled = true) :
    attemptStops (envs a) = true := by
  unfold attemptStops
  rw [h]
  exact hc

theorem attemptStops_of_retryable (envs : Nat → FetchEnv) (a : Nat) (e : DlError)
    (h : (fetchToFile (envs a)).result = .error e) (hc : e.isCancelled = false) :
    attemptStops (envs a) = false := by
  unfold attemptStops
  rw [h]
  exact hc

/-- Membership in the attempted-index list of the retry loop: exactly the
    indices in the fuel window all of whose predecessors (inside the window)
    failed with a retryable error. -/
theorem downloadLoopGo_mem (envs : Nat → FetchEnv) (prev : FetchOutcome)
    (a fuel : Nat) (i : Nat) :
    i ∈ (downloadLoopGo envs prev a fuel).2 ↔
      (a ≤ i ∧ i < a + fuel ∧ ∀ j, a ≤ j → j < i → attemptStops (envs j) = false) := by
  induction fuel generalizing a prev with
  | zero =>
    simp [downloadLoopGo]
    omega
  | succ n ih =>
    rw [downloadLoopGo_succ]
    rcases h : (fetchToFile (envs a)).result with e | p
    · cases hc : e.isCancelled
      · simp only [hc, Bool.false_eq_true, if_false, List.mem_cons]
        rw [ih]
        have hstop := attemptStops_of_retryable envs a e h hc
        constructor
        · rintro (hi | ⟨h1, h2, hall⟩)
          · subst hi
            exact ⟨by omega, by omega, fun j hj1 hj2 => by omega⟩
          · refine ⟨by omega, by omega, fun j hj1 hj2 => ?_⟩
            by_cases hja : j = a
            · subst hja; exact hstop
            · exact hall j (by omega) hj2
        · rintro ⟨h1, h2, hall⟩
          by_cases hia : i = a
          · exact Or.inl hia
          · exact Or.inr ⟨by omega, by omega, fun j hj1 hj2 => hall j (by omega) hj2⟩
      · simp only [hc, if_true]
        simp only [List.mem_singleton]
        constructor
        · intro hi; subst hi
          exact ⟨by omega, by omega, fun j hj1 hj2 => by omega⟩
        · rintro ⟨h1, h2, hall⟩
          by_contra hne
          have hlt : a < i := by omega
          have hstop := attemptStops_of_cancelled envs a e h hc
          rw [hall a (le_refl a) hlt] at hstop
          simp at hstop
    · simp only [List.mem_singleton]
      constructor
      · intro hi; subst hi
        exact ⟨by omega, by omega, fun j hj1 hj2 => by omega⟩
      · rintro ⟨h1, h2, hall⟩
        by_contra hne
        have hlt : a < i := by omega
        have hstop := attemptStops_of_ok envs a p h
        rw [hall a (le_refl a) hlt] at hstop
        simp at hstop

/-- When the loop ends in an error, every attempted call to fetchToFile
    returned an error. -/
theorem downloadLoopGo_all_error (envs : Nat → FetchEnv) (prev : FetchOutcome)
    (a fuel : Nat) (e : DlError)
    (hfin : (downloadLoopGo envs prev a fuel).1.result = .error e) :
    ∀ i ∈ (downloadLoopGo envs prev a fuel).2,
      ∃ e', (fetchToFile (envs i)).result = .error e' := by
  induction fuel generalizing a prev with
  | zero => simp [downloadLoopGo]
  | succ n ih =>
    rw [downloadLoopGo_succ] at hfin ⊢
    rcases h : (fetchToFile (envs a)).result with e0 | p
    · rw [h] at hfin
      dsimp only at hfin ⊢
      cases hc : e0.isCancelled
      · simp only [hc, Bool.false_eq_true, if_false] at hfin ⊢
        intro i hi
        rcases List.mem_cons.mp hi with hia | hrest
        · subst hia
          exact ⟨e0, h⟩
        · exact ih (fetchToFile (envs a)) (a + 1) hfin i hrest
      · simp only [hc, if_true] at hfin ⊢
        intro i hi
        simp at hi
        subst hi
        exact ⟨e0, h⟩
    · rw [h] at hfin
      dsimp only at hfin
      rw [h] at hfin
      cases hfin

/-- The temp-file bookkeeping of fetchToFile: the deferred os.Remove runs
    exactly when a temp file was created and the call returns an error. -/
theorem fetchToFile_cleanup_total (env : FetchEnv) :
    (fetchToFile env).tempRemoved =
      ((fetchToFile env).tempCreated && !(exceptIsOk (fetchToFile env).result)) := by
  unfold fetchToFile
  repeat' split
  all_goals rfl

/-- Every error return of fetchToFile removed the temp file iff it had
    created one. -/
theorem fetchToFile_error_cleanup (env : FetchEnv) (e : DlError)
    (h : (fetchToFile env).result = .error e) :
    (fetchToFile env).tempRemoved = (fetchToFile env).tempCreated := by
  have htot := fetchToFile_cleanup_total env
  rw [h] at htot
  simpa [exceptIsOk] using htot

/-! ## Characterizations of Download -/
/-- A cancelled barrier acquisition returns immediately with zero attempts. -/
theorem Download_true_def (envs : Nat → FetchEnv) :
    Download true envs =
      (⟨"", CachingInfoType.zero, some (.cancelledErr "download-barrier")⟩, []) := rfl

/-- Download with the barrier acquired runs the loop and normalises an
    error result to an empty path and zero validator. -/
theorem Download_false_fst (envs : Nat → FetchEnv) :
    (Download false envs).1 =
      (match (downloadLoopGo envs ⟨.ok ("", CachingInfoType.zero), false, false⟩ 0
          MAX_DOWNLOAD_ATTEMPTS).1.result with
       | .error e => ⟨"", CachingInfoType.zero, some e⟩
       | .ok pci => ⟨pci.1, pci.2, none⟩) := rfl

theorem Download_false_snd (envs : Nat → FetchEnv) :
    (Download false envs).2 =
      (downloadLoopGo envs ⟨.ok ("", CachingInfoType.zero), false, false⟩ 0
        MAX_DOWNLOAD_ATTEMPTS).2 := rfl

/-- C2: for every call to Downloader.Download, the single-fetch step is
    attempted at most MAX_DOWNLOAD_ATTEMPTS = 3 times in total; an index is
    attempted exactly when it is within the window and every earlier attempt
    failed with a non-cancellation error — so the loop stops at the first
    attempt that returns no error, stops immediately on a cancellation
    error, and retries on any other error. -/
theorem Download_retry_spec (cb : Bool) (envs : Nat → FetchEnv) :
    (Download cb envs).2.length ≤ MAX_DOWNLOAD_ATTEMPTS ∧
    (cb = false →
      ∀ i, i ∈ (Download cb envs).2 ↔
        (i < MAX_DOWNLOAD_ATTEMPTS ∧ ∀ j, j < i → attemptStops (envs j) = false)) := by
  constructor
  · cases cb
    · rw [Download_false_snd]
      exact downloadLoopGo_length envs _ 0 MAX_DOWNLOAD_ATTEMPTS
    · rw [Download_true_def]
      simp [MAX_DOWNLOAD_ATTEMPTS]
  · intro hcb i
    subst hcb
    rw [Download_false_snd, downloadLoopGo_mem]
    constructor
    · rintro ⟨h1, h2, h3⟩
      exact ⟨by omega, fun j hj => h3 j (by omega) hj⟩
    · rintro ⟨h1, h2⟩
      exact ⟨by omega, by omega, fun j hj1 hj2 => h2 j hj2⟩

/-- Witness for the retry specification: a server that always answers 500
    is retried exactly three times. -/
theorem Download_retry_spec_witness :
    (Download false (fun _ => env500)).2.length ≤ MAX_DOWNLOAD_ATTEMPTS ∧
    (false = false →
      ∀ i, i ∈ (Download false (fun _ => env500)).2 ↔
        (i < MAX_DOWNLOAD_ATTEMPTS ∧
          ∀ j, j < i → attemptStops ((fun _ => env500) j) = false)) :=
  Download_retry_spec false (fun _ => env500)

/-- C7: every erroring Download returns an empty path and a zero validator,
    and every attempt it made cleaned up its temp file (removed it iff it
    had created it). -/
theorem Download_error_clean (cb : Bool) (envs : Nat → FetchEnv) (e : DlError)
    (h : (Download cb envs).1.err = some e) :
    (Download cb envs).1.path = "" ∧
    (Download cb envs).1.cachingInfoOut = CachingInfoType.zero ∧
    ∀ i ∈ (Download cb envs).2,
      (fetchToFile (envs i)).tempRemoved = (fetchToFile (envs i)).tempCreated := by
  cases cb
  · rw [Download_false_fst] at h
    rw [Download_false_fst, Download_false_snd]
    rcases hr : (downloadLoopGo envs ⟨.ok ("", CachingInfoType.zero), false, false⟩ 0
        MAX_DOWNLOAD_ATTEMPTS).1.result with e0 | pci
    · refine ⟨rfl, rfl, ?_⟩
      intro i hi
      obtain ⟨e', he'⟩ := downloadLoopGo_all_error envs
        ⟨.ok ("", CachingInfoType.zero), false, false⟩ 0 MAX_DOWNLOAD_ATTEMPTS e0 hr i hi
      exact fetchToFile_error_cleanup (envs i) e' he'
    · rw [hr] at h
      exact Option.noConfusion h
  · rw [Download_true_def] at h ⊢
    refine ⟨rfl, rfl, ?_⟩
    intro i hi
    cases hi

/-- Witness for the cleanup specification at a concrete failing download. -/
theorem Download_error_clean_witness :
    (Download false (fun _ => env500)).1.err = some (.downloadFailed 500) ∧
    ((Download false (fun _ => env500)).1.path = "" ∧
      (Download false (fun _ => env500)).1.cachingInfoOut = CachingInfoType.zero ∧
      ∀ i ∈ (Download false (fun _ => env500)).2,
        (fetchToFile ((fun _ => env500) i)).tempRemoved =
          (fetchToFile ((fun _ => env500) i)).tempCreated) :=
  ⟨by decide, Download_error_clean false (fun _ => env500) (.downloadFailed 500) (by decide)⟩

/-! ## The checksum-ETag condition -/
theorem hexDecode_isSome_of_even : ∀ l : List Char, l.length % 2 = 0 →
    ((hexDecode l).isSome = true ↔ ∀ c ∈ l, (fromHexChar c).isSome = true)
  | [], _ => by simp [hexDecode]
  | [a], h => by simp at h
  | a :: b :: rest, h => by
    have hrest : rest.length % 2 = 0 := by
      simp only [List.length_cons] at h
      omega
    have ih := hexDecode_isSome_of_even rest hrest
    simp only [hexDecode, List.forall_mem_cons]
    rcases ha : fromHexChar a with _ | x
    · simp [ha]
    · rcases hb : fromHexChar b with _ | y
      · simp [ha, hb]
      · rcases hr : hexDecode rest with _ | r
        · rw [hr] at ih
          simp only [Option.isSome_none, Bool.false_eq_true, false_iff] at ih
          simp [ha, hb, ih]
        · rw [hr] at ih
          simp only [Option.isSome_some, true_iff] at ih
          simp [ha, hb]
          exact ih

/-- convertETagToChecksum accepts exactly the ETags that, after trimming
    every surrounding double quote, are 32 hex digits (either case). -/
theorem convertETag_isSome (etag : String) :
    (convertETagToChecksum etag).isSome = true ↔
      ((trimQuotes etag.toList).length = 32 ∧
        ∀ c ∈ trimQuotes etag.toList, (fromHexChar c).isSome = true) := by
  unfold convertETagToChecksum
  by_cases h : (trimQuotes etag.toList).length = 32
  · rw [if_neg (by omega)]
    rw [hexDecode_isSome_of_even (trimQuotes etag.toList) (by omega)]
    constructor
    · intro hall
      exact ⟨h, hall⟩
    · rintro ⟨h2, hall⟩
      exact hall
  · rw [if_pos (by omega)]
    simp only [Option.isSome_none, Bool.false_eq_true, false_iff]
    intro hc
    exact h hc.1

/-- The fully successful 200 streaming path of fetchToFile, before the
    checksum decision. -/
theorem fetchToFile_200 (env : FetchEnv) (r : HttpResponse)
    (hreq : env.requestOk = true) (hresp : env.response = some r)
    (h200 : r.statusCode = 200) (hcd : env.createDestOk = true)
    (hso : env.seekOk = true) (hto : env.truncateOk = true) (hco : env.copyOk = true) :
    fetchToFile env =
      (match convertETagToChecksum r.etagHeader with
       | some c =>
         if c ≠ md5 r.body then ⟨.error .checksumMismatch, true, true⟩
         else ⟨.ok (env.destName, ⟨r.etagHeader, r.lastModifiedHeader⟩), true, false⟩
       | none => ⟨.ok (env.destName, ⟨r.etagHeader, r.lastModifiedHeader⟩), true, false⟩) := by
  unfold fetchToFile
  rw [hreq, hresp]
  simp only [Bool.not_true, Bool.false_eq_true, if_false]
  rw [h200]
  simp [hcd, hso, hto, hco]

/-- C3 (amended): on a successfully streamed 200 response, the ETag is
    decoded and compared with the body MD5 exactly when — after trimming
    surrounding double quotes — it is a 32-character hex string with hex
    digits of either case (not only lowercase); a decode that mismatches the
    MD5 fails the attempt with a checksum-mismatch error, and an ETag
    outside that shape is never checked. -/
theorem fetchToFile_checksum_spec (env : FetchEnv) (r : HttpResponse)
    (hreq : env.requestOk = true) (hresp : env.response = some r)
    (h200 : r.statusCode = 200) (hcd : env.createDestOk = true)
    (hso : env.seekOk = true) (hto : env.truncateOk = true) (hco : env.copyOk = true) :
    (∀ c, convertETagToChecksum r.etagHeader = some c →
       (c = md5 r.body →
          (fetchToFile env).result =
            .ok (env.destName, ⟨r.etagHeader, r.lastModifiedHeader⟩)) ∧
       (c ≠ md5 r.body → (fetchToFile env).result = .error .checksumMismatch)) ∧
    (convertETagToChecksum r.etagHeader = none →
       (fetchToFile env).result =
         .ok (env.destName, ⟨r.etagHeader, r.lastModifiedHeader⟩)) ∧
    ((convertETagToChecksum r.etagHeader).isSome = true ↔
       ((trimQuotes r.etagHeader.toList).length = 32 ∧
         ∀ c ∈ trimQuotes r.etagHeader.toList, (fromHexChar c).isSome = true)) := by
  rw [fetchToFile_200 env r hreq hresp h200 hcd hso hto hco]
  refine ⟨?_, ?_, convertETag_isSome r.etagHeader⟩
  · intro c hc
    rw [hc]
    constructor
    · intro heq
      simp [heq]
    · intro hne
      simp [hne]
  · intro hc
    rw [hc]

/-- Counterexample to C3 as stated: a 32-character UPPERCASE hex ETag is
    not a lowercase hex string, so per the claim it must never be checked
    against the MD5 — yet the code decodes it (Go hex accepts both cases)
    and fails the attempt with a checksum mismatch. -/
theorem fetchToFile_checksum_uppercase_checked :
    (etagUpper.toList.length = 32 ∧ etagUpper.toList.all isLowerHexChar = false) ∧
    (fetchToFile cexEnvC3).result = .error .checksumMismatch ∧
    (fetchToFile cexEnvC3).result ≠
      .ok ("cex3.tmp", ⟨etagUpper, ""⟩) := by
  refine ⟨by decide, by decide, by decide⟩

/-- Witness for the amended checksum specification: a matching lowercase
    hex ETag passes the check and the attempt succeeds. -/
theorem fetchToFile_checksum_spec_witness :
    (fetchToFile witEnvC3).result = .ok ("wit3.tmp", ⟨etagLowerOk, ""⟩) :=
  ((fetchToFile_checksum_spec witEnvC3 ⟨200, etagLowerOk, "", []⟩
      rfl rfl rfl rfl rfl rfl rfl).1 (md5 []) (by decide)).1 rfl

/-- C4 (amended): for every response of one fetch attempt, 304 yields an
    empty path, zero validator and no error; any status other than 304 and
    200 yields the download-failed error carrying that status; and a
    successfully streamed 200 whose ETag checksum check passes yields the
    temp-file path with the response ETag and Last-Modified as the new
    validator. -/
theorem fetchToFile_status_dispatch (env : FetchEnv) (r : HttpResponse)
    (hreq : env.requestOk = true) (hresp : env.response = some r) :
    (r.statusCode = 304 →
       fetchToFile env = ⟨.ok ("", CachingInfoType.zero), false, false⟩) ∧
    (r.statusCode ≠ 304 → r.statusCode ≠ 200 →
       fetchToFile env = ⟨.error (.downloadFailed r.statusCode), false, false⟩) ∧
    (r.statusCode = 200 → env.createDestOk = true → env.seekOk = true →
       env.truncateOk = true → env.copyOk = true →
       (∀ c, convertETagToChecksum r.etagHeader = some c → c = md5 r.body) →
       (fetchToFile env).result =
         .ok (env.destName, ⟨r.etagHeader, r.lastModifiedHeader⟩)) := by
  refine ⟨?_, ?_, ?_⟩
  · intro h304
    unfold fetchToFile
    rw [hreq, hresp]
    simp [h304]
  · intro h304 h200
    unfold fetchToFile
    rw [hreq, hresp]
    simp only [Bool.not_true, Bool.false_eq_true, if_false]
    rw [if_neg h304, if_pos h200]
  · intro h200 hcd hso hto hco hchk
    rw [fetchToFile_200 env r hreq hresp h200 hcd hso hto hco]
    rcases hc : convertETagToChecksum r.etagHeader with _ | c
    · rfl
    · have := hchk c hc
      simp [this]

/-- Counterexample to C4 as stated: a successfully streamed 200 response
    does not always return its temp-file path — when the ETag decodes as an
    MD5 checksum different from the body MD5, the attempt fails instead. -/
theorem fetchToFile_200_not_always_path :
    (fetchToFile cexEnvC4).result = .error .checksumMismatch ∧
    (fetchToFile cexEnvC4).result ≠
      .ok ("cex4.tmp", ⟨"00000000000000000000000000000000", ""⟩) := by
  refine ⟨by decide, by decide⟩

/-- Witness for the status dispatch at a concrete 304 response. -/
theorem fetchToFile_status_dispatch_witness :
    fetchToFile witEnvC4 = ⟨.ok ("", CachingInfoType.zero), false, false⟩ :=
  (fetchToFile_status_dispatch witEnvC4 ⟨304, "", "", []⟩ rfl rfl).1 rfl

/-! ## Characterizations of populateCache -/
/-- A 304 round (Download succeeded with an empty path) reports a warm
    cache and touches nothing. -/
theorem populateCache_warm (env : PopulateEnv)
    (herr : (Download env.cancelledAtBarrier env.fetchEnvs).1.err = none)
    (hpath : (Download env.cancelledAtBarrier env.fetchEnvs).1.path = "") :
    populateCache env = ⟨.empty, true, 0, none⟩ := by
  simp [populateCache, herr, hpath]

/-- A fresh download (non-empty path) with successful stat, temp-file and
    transformer steps: the quadruple separates the raw downloaded size
    (returned) from the transformer-reported size (stored in download). -/
theorem populateCache_success (env : PopulateEnv) (raw tsize : Int)
    (herr : (Download env.cancelledAtBarrier env.fetchEnvs).1.err = none)
    (hpath : (Download env.cancelledAtBarrier env.fetchEnvs).1.path ≠ "")
    (hstat : env.statSize = some raw)
    (htmp : env.tmpOk = true) (hclose : env.closeOk = true)
    (htrans : env.transformResult = .ok tsize) :
    populateCache env =
      ⟨⟨env.transformedName, tsize,
        (Download env.cancelledAtBarrier env.fetchEnvs).1.cachingInfoOut⟩,
        false, raw, none⟩ := by
  simp [populateCache, herr, hpath, hstat, htmp, hclose, htrans]

/-! ## Coordinator claims -/
/-- C5: when the cache key is non-empty and the downloader reports a warm
    cache (no error, empty path — the 304 signal), Fetch returns exactly
    the handle and error of the preceding cache probe with size 0 and
    performs no cache mutation (no Add, no Remove, no handle close). -/
theorem Fetch_warm_returns_probe (key : String) (uenv : PopulateEnv) (uok : Bool)
    (cenv : FetchCachedEnv)
    (hkey : key ≠ "") (hlim : cenv.limiterCancelled = false)
    (herr : (Download cenv.populate.cancelledAtBarrier cenv.populate.fetchEnvs).1.err = none)
    (hpath : (Download cenv.populate.cancelledAtBarrier cenv.populate.fetchEnvs).1.path = "") :
    Fetch key uenv uok cenv =
      ⟨cenv.get.reader.map .fromCache, 0, cenv.get.getErr.map .cache, []⟩ := by
  have hpc := populateCache_warm cenv.populate herr hpath
  simp [Fetch, hkey, fetchCachedFile, hlim, hpc]

/-- C1: a fresh cacheable download whose cache admission fails with
    NotEnoughSpace: Fetch does not surface the error — it returns the
    transformed file as a delete-on-close handle with no error — while
    FetchAsDirectory surfaces NotEnoughSpace with no directory path. -/
theorem notEnoughSpace_fallback
    (key : String) (uenv : PopulateEnv) (uok : Bool) (cenv : FetchCachedEnv)
    (dkey : String) (denv : FetchDirEnv)
    (raw tsize draw dtsize : Int)
    (hkey : key ≠ "")
    (hlim : cenv.limiterCancelled = false)
    (herr : (Download cenv.populate.cancelledAtBarrier cenv.populate.fetchEnvs).1.err = none)
    (hpath : (Download cenv.populate.cancelledAtBarrier cenv.populate.fetchEnvs).1.path ≠ "")
    (hstat : cenv.populate.statSize = some raw)
    (htmp : cenv.populate.tmpOk = true)
    (hclose : cenv.populate.closeOk = true)
    (htrans : cenv.populate.transformResult = .ok tsize)
    (hcacheable : (Download cenv.populate.cancelledAtBarrier
      cenv.populate.fetchEnvs).1.cachingInfoOut.isCacheable = true)
    (hadd : cenv.addResult = .error .notEnoughSpace)
    (hopen : cenv.openOk = true)
    (hdlim : denv.limiterCancelled = false)
    (hdget : denv.getDir.getErr ≠ some .notEnoughSpace)
    (hderr : (Download denv.populate.cancelledAtBarrier denv.populate.fetchEnvs).1.err = none)
    (hdpath : (Download denv.populate.cancelledAtBarrier denv.populate.fetchEnvs).1.path ≠ "")
    (hdstat : denv.populate.statSize = some draw)
    (hdtmp : denv.populate.tmpOk = true)
    (hdclose : denv.populate.closeOk = true)
    (hdtrans : denv.populate.transformResult = .ok dtsize)
    (hdcacheable : (Download denv.populate.cancelledAtBarrier
      denv.populate.fetchEnvs).1.cachingInfoOut.isCacheable = true)
    (hdadd : denv.addDirResult = .error .notEnoughSpace) :
    ((Fetch key uenv uok cenv).err = none ∧
      (Fetch key uenv uok cenv).stream =
        some (.removeOnClose cenv.populate.transformedName)) ∧
    ((FetchAsDirectory dkey denv).err = some (.cache .notEnoughSpace) ∧
      (FetchAsDirectory dkey denv).dirPath = "") := by
  have hpc := populateCache_success cenv.populate raw tsize herr hpath hstat htmp hclose htrans
  have hdpc := populateCache_success denv.populate draw dtsize hderr hdpath hdstat hdtmp
    hdclose hdtrans
  constructor
  · simp [Fetch, hkey, fetchCachedFile, hlim, hpc, hcacheable, hadd, hopen]
  · simp [FetchAsDirectory, fetchCachedDirectory, hdlim, hdget, hdpc, hdcacheable, hdadd]

/-- C6: a fresh download whose new validator is not cacheable (no ETag and
    no Last-Modified): Fetch removes the stale entry for the fingerprint
    and returns the transformed file as a delete-on-close handle with no
    error; FetchAsDirectory removes the stale entry and returns
    NotCacheable with no directory path. -/
theorem notCacheable_uncached
    (key : String) (uenv : PopulateEnv) (uok : Bool) (cenv : FetchCachedEnv)
    (dkey : String) (denv : FetchDirEnv)
    (raw tsize draw dtsize : Int)
    (hkey : key ≠ "")
    (hlim : cenv.limiterCancelled = false)
    (herr : (Download cenv.populate.cancelledAtBarrier cenv.populate.fetchEnvs).1.err = none)
    (hpath : (Download cenv.populate.cancelledAtBarrier cenv.populate.fetchEnvs).1.path ≠ "")
    (hstat : cenv.populate.statSize = some raw)
    (htmp : cenv.populate.tmpOk = true)
    (hclose : cenv.populate.closeOk = true)
    (htrans : cenv.populate.transformResult = .ok tsize)
    (hnc : (Download cenv.populate.cancelledAtBarrier
      cenv.populate.fetchEnvs).1.cachingInfoOut.isCacheable = false)
    (hopen : cenv.openOk = true)
    (hdlim : denv.limiterCancelled = false)
    (hdget : denv.getDir.getErr ≠ some .notEnoughSpace)
    (hderr : (Download denv.populate.cancelledAtBarrier denv.populate.fetchEnvs).1.err = none)
    (hdpath : (Download denv.populate.cancelledAtBarrier denv.populate.fetchEnvs).1.path ≠ "")
    (hdstat : denv.populate.statSize = some draw)
    (hdtmp : denv.populate.tmpOk = true)
    (hdclose : denv.populate.closeOk = true)
    (hdtrans : denv.populate.transformResult = .ok dtsize)
    (hdnc : (Download denv.populate.cancelledAtBarrier
      denv.populate.fetchEnvs).1.cachingInfoOut.isCacheable = false) :
    ((Fetch key uenv uok cenv).stream =
        some (.removeOnClose cenv.populate.transformedName) ∧
      (Fetch key uenv uok cenv).err = none ∧
      (Fetch key uenv uok cenv).events =
        closeEvents cenv.get.reader ++ [.remove (md5hex key)]) ∧
    ((FetchAsDirectory dkey denv).dirPath = "" ∧
      (FetchAsDirectory dkey denv).err = some (.cache .notCacheable) ∧
      (FetchAsDirectory dkey denv).events =
        closeDirEvents (md5hex dkey) denv.getDir.dir ++ [.remove (md5hex dkey)]) := by
  have hpc := populateCache_success cenv.populate raw tsize herr hpath hstat htmp hclose htrans
  have hdpc := populateCache_success denv.populate draw dtsize hderr hdpath hdstat hdtmp
    hdclose hdtrans
  constructor
  · simp [Fetch, hkey, fetchCachedFile, hlim, hpc, hnc, hopen]
  · simp [FetchAsDirectory, fetchCachedDirectory, hdlim, hdget, hdpc, hdnc]

/-- C10: for a fresh cacheable download, the size Fetch returns to the
    caller is the raw downloaded byte size measured by os.Stat before the
    transformer runs (both when the entry is admitted and on the
    NotEnoughSpace uncached fallback), while the size handed to cache.Add
    for budget accounting is the transformer-reported size; the two differ
    whenever the transformer changes the size. -/
theorem Fetch_size_accounting
    (key : String) (uenv : PopulateEnv) (uok : Bool) (cenv : FetchCachedEnv)
    (raw tsize : Int) (tag : Nat)
    (hkey : key ≠ "")
    (hlim : cenv.limiterCancelled = false)
    (herr : (Download cenv.populate.cancelledAtBarrier cenv.populate.fetchEnvs).1.err = none)
    (hpath : (Download cenv.populate.cancelledAtBarrier cenv.populate.fetchEnvs).1.path ≠ "")
    (hstat : cenv.populate.statSize = some raw)
    (htmp : cenv.populate.tmpOk = true)
    (hclose : cenv.populate.closeOk = true)
    (htrans : cenv.populate.transformResult = .ok tsize)
    (hcacheable : (Download cenv.populate.cancelledAtBarrier
      cenv.populate.fetchEnvs).1.cachingInfoOut.isCacheable = true) :
    ((populateCache cenv.populate).size = raw ∧
      (populateCache cenv.populate).dl.size = tsize) ∧
    (cenv.addResult = .ok tag →
      (Fetch key uenv uok cenv).size = raw ∧
      (Fetch key uenv uok cenv).events =
        closeEvents cenv.get.reader ++
          [.add (md5hex key) cenv.populate.transformedName tsize
            (Download cenv.populate.cancelledAtBarrier
              cenv.populate.fetchEnvs).1.cachingInfoOut]) ∧
    (cenv.addResult = .error .notEnoughSpace → cenv.openOk = true →
      (Fetch key uenv uok cenv).size = raw) ∧
    (raw ≠ tsize →
      (populateCache cenv.populate).size ≠ (populateCache cenv.populate).dl.size) := by
  have hpc := populateCache_success cenv.populate raw tsize herr hpath hstat htmp hclose htrans
  refine ⟨by rw [hpc]; exact ⟨rfl, rfl⟩, ?_, ?_, ?_⟩
  · intro hadd
    constructor
    · simp [Fetch, hkey, fetchCachedFile, hlim, hpc, hcacheable, hadd]
    · simp [Fetch, hkey, fetchCachedFile, hlim, hpc, hcacheable, hadd]
  · intro hadd hopen
    simp [Fetch, hkey, fetchCachedFile, hlim, hpc, hcacheable, hadd, hopen]
  · intro hne
    rw [hpc]
    simp only
    intro hcontra
    exact hne hcontra

/-- Witness for the NotEnoughSpace fallback at concrete inputs. -/
theorem notEnoughSpace_fallback_witness :
    ((Fetch "k1" pEnvWarm true cenvC1).err = none ∧
      (Fetch "k1" pEnvWarm true cenvC1).stream =
        some (.removeOnClose cenvC1.populate.transformedName)) ∧
    ((FetchAsDirectory "k1d" denvC1).err = some (.cache .notEnoughSpace) ∧
      (FetchAsDirectory "k1d" denvC1).dirPath = "") :=
  notEnoughSpace_fallback "k1" pEnvWarm true cenvC1 "k1d" denvC1 1 9 1 9
    (by decide) rfl (by decide) (by decide) rfl rfl rfl rfl (by decide) rfl rfl
    rfl (by decide) (by decide) (by decide) rfl rfl rfl rfl (by decide) rfl

/-- Witness for the warm-cache return at a concrete 304 round. -/
theorem Fetch_warm_returns_probe_witness :
    Fetch "k5" pEnvWarm true cenvC5 =
      ⟨cenvC5.get.reader.map .fromCache, 0, cenvC5.get.getErr.map .cache, []⟩ :=
  Fetch_warm_returns_probe "k5" pEnvWarm true cenvC5 (by decide) rfl
    (by decide) (by decide)

/-- Witness for the non-cacheable handling at concrete inputs. -/
theorem notCacheable_uncached_witness :
    ((Fetch "k6" pEnvWarm true cenvC6).stream =
        some (.removeOnClose cenvC6.populate.transformedName) ∧
      (Fetch "k6" pEnvWarm true cenvC6).err = none ∧
      (Fetch "k6" pEnvWarm true cenvC6).events =
        closeEvents cenvC6.get.reader ++ [.remove (md5hex "k6")]) ∧
    ((FetchAsDirectory "k6d" denvC6).dirPath = "" ∧
      (FetchAsDirectory "k6d" denvC6).err = some (.cache .notCacheable) ∧
      (FetchAsDirectory "k6d" denvC6).events =
        closeDirEvents (md5hex "k6d") denvC6.getDir.dir ++ [.remove (md5hex "k6d")]) :=
  notCacheable_uncached "k6" pEnvWarm true cenvC6 "k6d" denvC6 1 9 1 9
    (by decide) rfl (by decide) (by decide) rfl rfl rfl rfl (by decide) rfl rfl
    (by decide) (by decide) (by decide) rfl rfl rfl rfl (by decide)

/-- Witness for the size accounting at concrete inputs (raw size 1,
    transformer-reported size 9). -/
theorem Fetch_size_accounting_witness :
    (((populateCache cenvC10.populate).size = 1 ∧
        (populateCache cenvC10.populate).dl.size = 9) ∧
      (cenvC10.addResult = .ok 11 →
        (Fetch "kt" pEnvWarm true cenvC10).size = 1 ∧
        (Fetch "kt" pEnvWarm true cenvC10).events =
          closeEvents cenvC10.get.reader ++
            [.add (md5hex "kt") cenvC10.populate.transformedName 9
              (Download cenvC10.populate.cancelledAtBarrier
                cenvC10.populate.fetchEnvs).1.cachingInfoOut]) ∧
      (cenvC10.addResult = .error .notEnoughSpace → cenvC10.openOk = true →
        (Fetch "kt" pEnvWarm true cenvC10).size = 1) ∧
      ((1 : Int) ≠ 9 →
        (populateCache cenvC10.populate).size ≠ (populateCache cenvC10.populate).dl.size)) :=
  Fetch_size_accounting "kt" pEnvWarm true cenvC10 1 9 11
    (by decide) rfl (by decide) (by decide) rfl rfl rfl rfl (by decide)

/-! ## Constructor claims -/
theorem lookup_removeAll_self (fs : FS) (p : String) :
    (removeAll fs p).lookup p = none := by
  induction fs with
  | nil => rfl
  | cons hd tl ih =>
    obtain ⟨k, v⟩ := hd
    simp only [removeAll, List.filter_cons] at ih ⊢
    by_cases h : k = p
    · rw [if_neg (by simp [h])]
      exact ih
    · rw [if_pos (by simp [h])]
      have hpk : (p == k) = false := beq_eq_false_iff_ne.mpr (fun he => h he.symm)
      simp only [List.lookup, hpk]
      exact ih

theorem lookup_removeAll_other (fs : FS) (p q : String) (h : q ≠ p) :
    (removeAll fs p).lookup q = fs.lookup q := by
  induction fs with
  | nil => rfl
  | cons hd tl ih =>
    obtain ⟨k, v⟩ := hd
    simp only [removeAll, List.filter_cons] at ih ⊢
    by_cases hh : k = p
    · rw [if_neg (by simp [hh])]
      have hqk : (q == k) = false := beq_eq_false_iff_ne.mpr (by rw [hh]; exact h)
      simp only [List.lookup, hqk]
      exact ih
    · rw [if_pos (by simp [hh])]
      by_cases hq : q = k
      · simp [List.lookup, hq]
      · have hqk : (q == k) = false := beq_eq_false_iff_ne.mpr hq
        simp only [List.lookup, hqk]
        exact ih

/-- C8 (amended): the constructor recreates the cache directory empty
    (RemoveAll then MkdirAll), but performs no filesystem call on the
    uncached directory — after New the cache directory exists and is empty
    while the uncached directory is exactly as it was before. -/
theorem New_wipes_cache_only (fs : FS) (c u : String) :
    (New fs c u).lookup c = some [] ∧
    (u ≠ c → (New fs c u).lookup u = fs.lookup u) := by
  constructor
  · simp only [New, mkdirAll]
    rw [lookup_removeAll_self fs c]
    simp [List.lookup]
  · intro h
    simp only [New, mkdirAll]
    rw [lookup_removeAll_self fs c]
    simp only [Option.isSome_none, Bool.false_eq_true, if_false]
    have huc : (u == c) = false := beq_eq_false_iff_ne.mpr h
    simp only [List.lookup, huc]
    exact lookup_removeAll_other fs c u h

/-- Counterexample to C8 as stated: the uncached directory is neither wiped
    (pre-existing contents survive) nor created (a missing uncached
    directory stays missing) by the constructor. -/
theorem New_does_not_touch_uncached :
    (New [("u", ["junk"])] "c" "u").lookup "u" = some ["junk"] ∧
    (New ([] : FS) "c" "u").lookup "u" = none := by
  constructor <;> rfl

/-- Witness for the amended constructor behavior at a concrete filesystem. -/
theorem New_wipes_cache_only_witness :
    (New fs0 "c9" "u9").lookup "c9" = some [] ∧
    (New fs0 "c9" "u9").lookup "u9" = fs0.lookup "u9" :=
  ⟨(New_wipes_cache_only fs0 "c9" "u9").1,
    (New_wipes_cache_only fs0 "c9" "u9").2 (by decide)⟩

/-! ## Single-flight claims -/
/-- C9: in every reachable state of the gate protocol, at most one caller
    holds the per-fingerprint gate (so at most one in-flight download
    exists per cache key); and no step takes a waiting caller directly to
    holding — a woken waiter goes back to the probe (re-probing the cache)
    rather than reusing the prior holder's result. -/
theorem single_flight (s : GateState) (h : GateReachable s) :
    (∀ t1 t2 k g1 g2, s.threads t1 = .holding k g1 → s.threads t2 = .holding k g2 →
        t1 = t2) ∧
    (∀ s', GateStep s s' → ∀ t k g k' g',
        s.threads t = .waiting k g → s'.threads t ≠ .holding k' g') := by
  obtain ⟨inv1, inv2, inv3, inv4, inv5⟩ := gateInv_reachable s h
  constructor
  · intro t1 t2 k g1 g2 h1 h2
    obtain ⟨m1, _⟩ := inv1 t1 k g1 h1
    obtain ⟨m2, _⟩ := inv1 t2 k g2 h2
    rw [m1] at m2
    injection m2 with hg
    subst hg
    exact inv2 t1 t2 k k g1 h1 h2
  · intro s' hstep t k g k' g' hw
    cases hstep with
    | install t0 k0 hts hip =>
      intro hcontra
      simp only [updThread] at hcontra
      by_cases het : t = t0
      · rw [het] at hw
        rw [hw] at hts
        cases hts
      · rw [if_neg het] at hcontra
        rw [hw] at hcontra
        cases hcontra
    | observe t0 k0 g0 hts hip =>
      intro hcontra
      simp only [updThread] at hcontra
      by_cases het : t = t0
      · rw [if_pos het] at hcontra
        cases hcontra
      · rw [if_neg het] at hcontra
        rw [hw] at hcontra
        cases hcontra
    | wake t0 k0 g0 hts hcl =>
      intro hcontra
      simp only [updThread] at hcontra
      by_cases het : t = t0
      · rw [if_pos het] at hcontra
        cases hcontra
      · rw [if_neg het] at hcontra
        rw [hw] at hcontra
        cases hcontra
    | cancelWait t0 k0 g0 hts =>
      intro hcontra
      simp only [updThread] at hcontra
      by_cases het : t = t0
      · rw [if_pos het] at hcontra
        cases hcontra
      · rw [if_neg het] at hcontra
        rw [hw] at hcontra
        cases hcontra
    | release t0 k0 g0 hts =>
      intro hcontra
      simp only [updThread] at hcontra
      by_cases het : t = t0
      · rw [if_pos het] at hcontra
        cases hcontra
      · rw [if_neg het] at hcontra
        rw [hw] at hcontra
        cases hcontra

theorem gateS0_init : GateInit gateS0 := by
  refine ⟨fun k => rfl, rfl, rfl, fun t => ?_⟩
  by_cases h : t = 0
  · exact Or.inl ⟨"k", by simp [gateS0, gateThreads0, h]⟩
  · exact Or.inr (by simp [gateS0, gateThreads0, h])

theorem gateS1_reachable : GateReachable gateS1 :=
  .step gateS0 gateS1 (.init gateS0 gateS0_init) (.install gateS0 0 "k" rfl rfl)

/-- Witness for the single-flight theorem at a concrete reachable state
    with one holder. -/
theorem single_flight_witness :
    gateS1.threads 0 = TState.holding "k" 0 ∧ (0 : Nat) = 0 :=
  ⟨rfl, (single_flight gateS1 gateS1_reachable).1 0 0 "k" 0 0 rfl rfl⟩

end CachedDownloader
